import Mathlib

/-!
Shallow embedding of the `go-coap` demo programs
(`examples/demo/server/main.go` and `examples/demo/client/main.go`,
the latter containing two variants of the discovery client).

The CoAP transport library itself is external to the repository; what is
embedded here is the orchestration code the repository contains: the
server's `/oic/res` and `/observe` handlers, `sendResponse`, the
`periodicTransmitter` loop, and the client's discovery-callback /
device-selection / observer-address-derivation logic (including Go's
`net.SplitHostPort`, which the client calls).

Time-dependent strings (the Go-formatted `time.Since` durations) are kept
as parameters: the repository only ever splices them into the fixed
`"Been running for %v"` template.
-/

namespace GoCoapDemo

/-! ## Message model (the fields the demo reads or writes) -/

/-- CoAP method/response codes used by the demo (`message/codes`):
`GET = 0.01`, `POST = 0.02`, `Content = 2.05 = 69`. -/
def codeGET : Nat := 1

def codePOST : Nat := 2

def codeContent : Nat := 69

/-- `message.TextPlain` media type. -/
def TextPlain : Nat := 0

/-- CoAP message types (`message.Type`). The server's `/observe` handler
never inspects this field; it is carried so that claims about
confirmable vs non-confirmable requests can be stated. -/
inductive MType where
  | Confirmable
  | NonConfirmable
  | Acknowledgement
  | Reset
deriving DecidableEq, Repr

/-- The view of an inbound `mux.Message` that `handleObserve` uses:
its code, its message type, its token, and the result of
`r.Options().Observe()` (`none` models a non-nil error, i.e. the
observe option being absent or unreadable). -/
structure MuxMessage where
  code : Nat
  mtype : MType
  token : List Nat
  observe : Option Nat
deriving DecidableEq, Repr

/-- An outbound message as built by `sendResponse`: code, token, body,
content format, and the observe option (`none` when `SetObserve` was not
called). -/
structure RespMessage where
  code : Nat
  token : List Nat
  body : String
  contentFormat : Nat
  observe : Option Nat
deriving DecidableEq, Repr

/-! ## Server: `sendResponse`, `periodicTransmitter`, `handleObserve`,
`handleMcast` -/

/-- Go two's-complement wrap-around of an `int64` value. -/
def wrap64 (x : Int) : Int := (x + 2 ^ 63) % 2 ^ 64 - 2 ^ 63

/-- Go's conversion `uint32(v)` of a nonnegative `int64` value:
truncation modulo `2^32`. -/
def uint32Of (v : Int) : Nat := (v % 2 ^ 32).toNat

/-- `sendResponse(cc, token, subded, obs)` builds one message: code
`Content`, the given token, body `"Been running for %v"` of the elapsed
duration (the Go-formatted duration string is the `durStr` parameter),
content format `text/plain`, and — only when `obs >= 0` —
the observe option set to `uint32(obs)`. -/
def sendResponseMsg (token : List Nat) (durStr : String) (obs : Int) : RespMessage :=
  { code := codeContent
    token := token
    body := "Been running for " ++ durStr
    contentFormat := TextPlain
    observe := if 0 ≤ obs then some (uint32Of obs) else none }

/-- The message written by the `periodicTransmitter` loop at its `n`-th
iteration (0-based): the loop counter is the `int64` value `2 + n`
(wrapping as an `int64`), and `durStrs n` is the Go-formatted
`time.Since(subded)` string at that tick. -/
def transmitterMsg (token : List Nat) (durStrs : Nat → String) (n : Nat) : RespMessage :=
  sendResponseMsg token (durStrs n) (wrap64 (2 + (n : Int)))

/-- Whether the `periodicTransmitter` loop reaches its `n`-th write call,
given `writeOk m` = whether the `m`-th `cc.WriteMessage` returned a nil
error. The loop `return`s at the first failed write, so write `n` is
attempted iff all earlier writes succeeded. -/
def writeAttempted (writeOk : Nat → Bool) : Nat → Bool
  | 0 => true
  | n + 1 => writeAttempted writeOk n && writeOk n

/-- The action `handleObserve` takes on a request. `spawnTransmitter`
models `go periodicTransmitter(w.Conn(), r.Token())` with no synchronous
response; `sendOnce` models the single synchronous `sendResponse` call;
`noResponse` models falling through the `switch` with no case taken. -/
inductive ObserveAction where
  | spawnTransmitter (token : List Nat)
  | sendOnce (msg : RespMessage)
  | noResponse
deriving DecidableEq, Repr

/-- `handleObserve`: first `switch` case fires when the code is `GET`,
`Observe()` returned no error, and the observe value is `0`; the second
fires for any other `GET` and sends one response with `obs = -1`
(`durStr` is the formatted `time.Since(time.Now())` of that call);
otherwise nothing happens. The message type is never consulted. -/
def handleObserve (r : MuxMessage) (durStr : String) : ObserveAction :=
  if r.code = codeGET ∧ r.observe = some 0 then
    .spawnTransmitter r.token
  else if r.code = codeGET then
    .sendOnce (sendResponseMsg r.token durStr (-1))
  else
    .noResponse

/-- The response `handleMcast` produces: `nil` when `r.Options().Path()`
errored (the handler returns without responding), otherwise the fixed
`Content` / `text/plain` / `"mcast response"` reply, for any path. -/
structure McastResponse where
  code : Nat
  contentFormat : Nat
  body : String
deriving DecidableEq, Repr

/-- `handleMcast` keyed on the result of `r.Options().Path()`. -/
def handleMcast (path : Option String) : Option McastResponse :=
  match path with
  | none => none
  | some _ => some { code := codeContent, contentFormat := TextPlain, body := "mcast response" }

/-! ## Client: `net.SplitHostPort`, the discovery callbacks, device
selection and observer-address derivation -/

/-- Index of the last occurrence of `c` in `l` (Go's `last(s, ':')`),
`none` when absent. -/
def lastIdx (l : List Char) (c : Char) : Option Nat :=
  (l.reverse.findIdx? (· = c)).map (fun j => l.length - 1 - j)

/-- Go's `net.SplitHostPort` on the underlying character list. Follows
the standard-library algorithm: the port starts after the last colon; a
leading `'['` selects the bracketed (IPv6) form whose `']'` must sit
just before that colon; a bare host may contain no colon; stray
brackets are rejected. All error returns collapse to `none`. -/
def splitHostPortL (s : List Char) : Option (List Char × List Char) :=
  match lastIdx s ':' with
  | none => none
  | some i =>
    if s.head? = some '[' then
      match s.findIdx? (· = ']') with
      | none => none
      | some e =>
        if e + 1 = s.length then none
        else if e + 1 = i then
          if (s.drop 1).contains '[' then none
          else if (s.drop (e + 1)).contains ']' then none
          else some ((s.drop 1).take (e - 1), s.drop (i + 1))
        else none
    else
      if (s.take i).contains ':' then none
      else if s.contains '[' then none
      else if s.contains ']' then none
      else some (s.take i, s.drop (i + 1))

/-- `net.SplitHostPort` on strings; `none` models a non-nil error. -/
def splitHostPort (s : String) : Option (String × String) :=
  (splitHostPortL s.data).map (fun p => (⟨p.1⟩, ⟨p.2⟩))

/-- The loopback test in the first client variant's discovery callback. -/
def isLoopbackHost (h : String) : Bool :=
  h == "127.0.0.1" || h == "::1" || h == "localhost"

/-- One step of the first client variant's discovery callback, acting on
the `firstDevice` variable (initially `""`): a response whose remote
address fails `SplitHostPort` is skipped, a loopback host is skipped,
and otherwise the address is recorded iff `firstDevice` is still empty. -/
def callback1 (first : String) (addr : String) : String :=
  match splitHostPort addr with
  | none => first
  | some hp =>
    if isLoopbackHost hp.1 then first
    else if first == "" then addr
    else first

/-- One step of the second client variant's discovery callback: no
parsing and no loopback filter, the address is recorded iff
`firstDevice` is still empty. -/
def callback2 (first : String) (addr : String) : String :=
  if first == "" then addr else first

/-- The value of `firstDevice` after the first variant's callback has
run on each discovery response (in arrival order). -/
def runDiscovery1 (addrs : List String) : String := addrs.foldl callback1 ""

/-- The value of `firstDevice` after the second variant's callback has
run on each discovery response (in arrival order). -/
def runDiscovery2 (addrs : List String) : String := addrs.foldl callback2 ""

/-- Whether a response address would be accepted by the first variant's
filter: it parses and its host is not loopback. -/
def qualifies1 (addr : String) : Bool :=
  match splitHostPort addr with
  | none => false
  | some hp => ! isLoopbackHost hp.1

/-- Outcome of the first client variant's
`select { case <-deviceFound ... case <-time.After(discoveryTimeout) }`:
if no response within the window set `firstDevice`, the timeout branch
fires `log.Fatal("Timeout: No non-local devices found")`. -/
inductive Outcome1 where
  | selected (addr : String)
  | timeoutFatal
deriving DecidableEq, Repr

def discoverOutcome1 (addrs : List String) : Outcome1 :=
  let s := runDiscovery1 addrs
  if s == "" then .timeoutFatal else .selected s

/-- Outcome of the second client variant's unconditional `<-deviceFound`
wait: it either receives a selection or blocks forever — there is no
timeout branch at all. -/
inductive Outcome2 where
  | selected (addr : String)
  | blocksForever
deriving DecidableEq, Repr

def discoverOutcome2 (addrs : List String) : Outcome2 :=
  let s := runDiscovery2 addrs
  if s == "" then .blocksForever else .selected s

/-- A response address whose host part is one of the loopback names. -/
def isLoopbackAddr (addr : String) : Bool :=
  match splitHostPort addr with
  | none => false
  | some hp => isLoopbackHost hp.1

/-- The client's observer-address derivation:
`host, _, err := net.SplitHostPort(firstDevice)` followed by
`fmt.Sprintf("%s:5688", host)`; a parse error is `log.Fatal` (`none`). -/
def deriveObserverAddr (firstDevice : String) : Option String :=
  match splitHostPort firstDevice with
  | none => none
  | some hp => some (hp.1 ++ ":5688")

/-- A host string free of the separator characters `':'`, `'['`, `']'`
(every IPv4 address and ordinary host name is). -/
def hostSepFree (h : String) : Bool :=
  !(h.data.contains ':' || h.data.contains '[' || h.data.contains ']')

/-! ## Theorems -/

/-- C1: the claim requires a confirmable-only spawn; the code never
consults the message type. Counterexample: a `NonConfirmable` GET with
observe value 0 does spawn the periodic transmitter, which the claim
forbids. -/
theorem nonconfirmable_get_observe_zero_spawns_transmitter :
    handleObserve
        { code := codeGET, mtype := .NonConfirmable, token := [1], observe := some 0 } "0s"
      = .spawnTransmitter [1] := by
  decide

/-- C1 (amended): `handleObserve` spawns the periodic transmitter (and
returns with no synchronous response) iff the request's method code is
GET and its observe option is present with value 0 — irrespective of
the message type. -/
theorem spawn_transmitter_iff_get_and_observe_zero (r : MuxMessage) (d : String) :
    handleObserve r d = .spawnTransmitter r.token ↔
      r.code = codeGET ∧ r.observe = some 0 := by
  unfold handleObserve
  split
  · simp_all
  · split <;> simp_all

/-- C3: a GET carrying no observe option takes the synchronous branch:
exactly one `sendResponse` with `obs = -1`, whose message has no observe
option set, and no periodic transmitter is spawned. -/
theorem plain_get_single_response_no_observe (r : MuxMessage) (d : String)
    (hc : r.code = codeGET) (ho : r.observe = none) :
    handleObserve r d = .sendOnce (sendResponseMsg r.token d (-1)) ∧
    (sendResponseMsg r.token d (-1)).observe = none ∧
    (∀ t, handleObserve r d ≠ .spawnTransmitter t) := by
  refine ⟨by simp [handleObserve, hc, ho], by norm_num [sendResponseMsg], ?_⟩
  intro t
  simp [handleObserve, hc, ho]

/-- C3 witness at a concrete plain GET. -/
theorem plain_get_single_response_no_observe_witness :
    handleObserve { code := codeGET, mtype := .Confirmable, token := [7], observe := none } "42s"
      = .sendOnce (sendResponseMsg [7] "42s" (-1)) ∧
    (sendResponseMsg [7] "42s" (-1)).observe = none ∧
    (∀ t, handleObserve
        { code := codeGET, mtype := .Confirmable, token := [7], observe := none } "42s"
      ≠ .spawnTransmitter t) :=
  plain_get_single_response_no_observe _ "42s" rfl rfl

/-- C9: a GET whose observe option has a nonzero value (e.g. the
deregister value 1) misses the first case but matches the second:
one synchronous response without observe option, no transmitter. -/
theorem nonzero_observe_get_synchronous_response (r : MuxMessage) (d : String) (v : Nat)
    (hc : r.code = codeGET) (ho : r.observe = some v) (hv : v ≠ 0) :
    handleObserve r d = .sendOnce (sendResponseMsg r.token d (-1)) ∧
    (sendResponseMsg r.token d (-1)).observe = none ∧
    (∀ t, handleObserve r d ≠ .spawnTransmitter t) := by
  refine ⟨by simp [handleObserve, hc, ho, hv], by norm_num [sendResponseMsg], ?_⟩
  intro t
  simp [handleObserve, hc, ho, hv]

/-- C9 witness: the deregister value 1. -/
theorem nonzero_observe_get_synchronous_response_witness :
    handleObserve { code := codeGET, mtype := .Confirmable, token := [3], observe := some 1 } "0s"
      = .sendOnce (sendResponseMsg [3] "0s" (-1)) ∧
    (sendResponseMsg [3] "0s" (-1)).observe = none ∧
    (∀ t, handleObserve
        { code := codeGET, mtype := .Confirmable, token := [3], observe := some 1 } "0s"
      ≠ .spawnTransmitter t) :=
  nonzero_observe_get_synchronous_response _ "0s" 1 rfl rfl (by decide)

/-- C10: a request whose method code is not GET matches neither switch
case: the handler returns with no response and no transmitter. -/
theorem non_get_no_response (r : MuxMessage) (d : String) (hc : r.code ≠ codeGET) :
    handleObserve r d = .noResponse := by
  simp [handleObserve, hc]

/-- C10 witness: a POST to `/observe`. -/
theorem non_get_no_response_witness :
    handleObserve { code := codePOST, mtype := .Confirmable, token := [1], observe := some 0 } "0s"
      = .noResponse :=
  non_get_no_response _ "0s" (by decide)

/-- C8: every discovery response `handleMcast` sends is exactly
`"mcast response"` with content type `text/plain`, and every message
built by `sendResponse` (in particular each observe notification) has
body `"Been running for " ++ durStr` with content type `text/plain`. -/
theorem response_bodies_literal :
    (∀ p : String, handleMcast (some p) =
        some { code := codeContent, contentFormat := TextPlain, body := "mcast response" }) ∧
    (∀ (tok : List Nat) (d : String) (o : Int),
        (sendResponseMsg tok d o).body = "Been running for " ++ d ∧
        (sendResponseMsg tok d o).contentFormat = TextPlain) :=
  ⟨fun _ => rfl, fun _ _ _ => ⟨rfl, rfl⟩⟩

/-- C4: once the `k`-th write of a periodic transmitter fails, no later
write is ever attempted: the loop has exited permanently, with no retry
and no backoff. -/
theorem transmitter_stops_after_first_write_error (writeOk : Nat → Bool) (k n : Nat)
    (hk : writeOk k = false) (hkn : k < n) :
    writeAttempted writeOk n = false := by
  induction n with
  | zero => omega
  | succ m ih =>
    rcases Nat.lt_succ_iff_lt_or_eq.mp hkn with h | h
    · simp [writeAttempted, ih h]
    · subst h
      simp [writeAttempted, hk]

/-- C4 witness: write 1 fails, so write 2 is never attempted. -/
theorem transmitter_stops_after_first_write_error_witness :
    writeAttempted (fun m => m == 0) 2 = false :=
  transmitter_stops_after_first_write_error (fun m => m == 0) 1 2 (by decide) (by decide)

/-- When every write succeeds, every iteration of the transmitter loop
is reached. -/
lemma writeAttempted_of_all_ok (writeOk : Nat → Bool) (h : ∀ m, writeOk m = true) :
    ∀ n, writeAttempted writeOk n = true := by
  intro n
  induction n with
  | zero => rfl
  | succ m ih => simp [writeAttempted, ih, h]

/-- C2 counterexample: the loop counter is an `int64` but `SetObserve`
receives `uint32(obs)`, so the wire value wraps modulo `2^32`: in an
all-successful run, push 0 and push `2^32` both carry observe value 2 —
the value is reused, refuting "no value ever reused". -/
theorem observe_seq_wraps_and_reuses_two :
    (transmitterMsg [1] (fun _ => "d") 0).observe = some 2 ∧
    (transmitterMsg [1] (fun _ => "d") (2 ^ 32)).observe = some 2 ∧
    writeAttempted (fun _ => true) (2 ^ 32) = true :=
  ⟨by decide, by decide, writeAttempted_of_all_ok _ (fun _ => rfl) _⟩

/-- C2 (amended): the observe value of the `n`-th push is
`(2 + n) mod 2^32`; for all pushes before the wrap (`2 + n < 2^32`) it
is exactly `2 + n` — so the sequence starts at 2 and is strictly
increasing with no reuse throughout that range, wrapping only after
`2^32 - 2` pushes. -/
theorem observe_seq_strictly_increasing_before_wrap (tok : List Nat) (ds : Nat → String)
    (n : Nat) (hn : 2 + n < 2 ^ 32) :
    (transmitterMsg tok ds n).observe = some (2 + n) := by
  have e63 : (2 : Int) ^ 63 = 9223372036854775808 := by norm_num
  have e64 : (2 : Int) ^ 64 = 18446744073709551616 := by norm_num
  have e32 : (2 : Int) ^ 32 = 4294967296 := by norm_num
  have hn32 : (n : Int) < 4294967296 := by exact_mod_cast by omega
  have h64 : wrap64 (2 + (n : Int)) = 2 + (n : Int) := by
    unfold wrap64
    rw [e63, e64]
    omega
  have h0 : (0 : Int) ≤ 2 + (n : Int) := by omega
  have hu : uint32Of (2 + (n : Int)) = 2 + n := by
    unfold uint32Of
    rw [e32]
    omega
  simp [transmitterMsg, sendResponseMsg, h64, h0, hu]

/-- C2 witness: the first push carries observe value 2. -/
theorem observe_seq_strictly_increasing_before_wrap_witness :
    (transmitterMsg [9] (fun _ => "1s") 0).observe = some 2 :=
  observe_seq_strictly_increasing_before_wrap [9] (fun _ => "1s") 0 (by norm_num)

/-- Once `firstDevice` is non-empty, the first variant's callback never
changes it. -/
lemma callback1_of_ne (s a : String) (hs : s ≠ "") : callback1 s a = s := by
  unfold callback1
  cases splitHostPort a with
  | none => rfl
  | some hp => simp [hs]

/-- Once `firstDevice` is non-empty, the second variant's callback never
changes it. -/
lemma callback2_of_ne (s a : String) (hs : s ≠ "") : callback2 s a = s := by
  simp [callback2, hs]

lemma foldl_callback1_of_ne (addrs : List String) (s : String) (hs : s ≠ "") :
    addrs.foldl callback1 s = s := by
  induction addrs with
  | nil => rfl
  | cons a rest ih => rw [List.foldl_cons, callback1_of_ne s a hs, ih]

lemma foldl_callback2_of_ne (addrs : List String) (s : String) (hs : s ≠ "") :
    addrs.foldl callback2 s = s := by
  induction addrs with
  | nil => rfl
  | cons a rest ih => rw [List.foldl_cons, callback2_of_ne s a hs, ih]

lemma qualifies1_ne_empty (a : String) (h : qualifies1 a = true) : a ≠ "" := by
  rintro rfl
  exact absurd h (by decide)

lemma callback1_empty_of_qualifies (a : String) (h : qualifies1 a = true) :
    callback1 "" a = a := by
  unfold callback1
  unfold qualifies1 at h
  cases hsp : splitHostPort a with
  | none => rw [hsp] at h; exact absurd h (by simp)
  | some hp =>
    rw [hsp] at h
    simp only [Bool.not_eq_true'] at h
    simp [h]

lemma callback1_empty_of_not_qualifies (a : String) (h : qualifies1 a = false) :
    callback1 "" a = "" := by
  unfold callback1
  unfold qualifies1 at h
  cases hsp : splitHostPort a with
  | none => rfl
  | some hp =>
    rw [hsp] at h
    simp only [Bool.not_eq_false'] at h
    simp [h]

/-- The first variant's selection is exactly the first discovery
response that parses and is not loopback. -/
lemma runDiscovery1_eq_first_qualifying (addrs : List String) :
    runDiscovery1 addrs = (addrs.filter qualifies1).headD "" := by
  induction addrs with
  | nil => rfl
  | cons a rest ih =>
    by_cases h : qualifies1 a = true
    · unfold runDiscovery1
      rw [List.foldl_cons, callback1_empty_of_qualifies a h,
        foldl_callback1_of_ne rest a (qualifies1_ne_empty a h)]
      simp [List.filter_cons, h]
    · unfold runDiscovery1 at ih ⊢
      rw [List.foldl_cons, callback1_empty_of_not_qualifies a (by simpa using h), ih]
      simp [List.filter_cons, h]

/-- C5 counterexample: in the second client variant (no loopback
filter), a run whose responses are a loopback responder followed by a
non-loopback responder selects the loopback address — not the first
non-loopback responder, refuting the claim for that variant. -/
theorem second_variant_selects_loopback_first :
    runDiscovery2 ["127.0.0.1:5683", "203.0.113.5:5683"] = "127.0.0.1:5683" ∧
    isLoopbackAddr "127.0.0.1:5683" = true ∧
    qualifies1 "203.0.113.5:5683" = true :=
  ⟨by decide, by decide, by decide⟩

/-- C5 (amended): in both variants at most one device is ever selected:
once `firstDevice` is non-empty no later response changes it. The first
variant selects exactly the first response that parses and is
non-loopback; the second variant selects the first response of any
kind (loopback included). -/
theorem discovery_selection_characterization :
    (∀ (s : String) (addrs : List String), s ≠ "" → addrs.foldl callback1 s = s) ∧
    (∀ (s : String) (addrs : List String), s ≠ "" → addrs.foldl callback2 s = s) ∧
    (∀ addrs : List String, runDiscovery1 addrs = (addrs.filter qualifies1).headD "") ∧
    (∀ (a : String) (addrs : List String), a ≠ "" → runDiscovery2 (a :: addrs) = a) := by
  refine ⟨fun s addrs hs => foldl_callback1_of_ne addrs s hs,
    fun s addrs hs => foldl_callback2_of_ne addrs s hs,
    runDiscovery1_eq_first_qualifying, ?_⟩
  intro a addrs ha
  unfold runDiscovery2
  rw [List.foldl_cons]
  show addrs.foldl callback2 (callback2 "" a) = a
  rw [show callback2 "" a = a from rfl, foldl_callback2_of_ne addrs a ha]

/-- C5 witness: concrete runs of each conjunct. -/
theorem discovery_selection_characterization_witness :
    (["10.0.0.9:5683"] : List String).foldl callback1 "203.0.113.5:5683" = "203.0.113.5:5683" ∧
    (["10.0.0.9:5683"] : List String).foldl callback2 "203.0.113.5:5683" = "203.0.113.5:5683" ∧
    runDiscovery1 ["127.0.0.1:5683", "203.0.113.5:5683"] =
      ((["127.0.0.1:5683", "203.0.113.5:5683"] : List String).filter qualifies1).headD "" ∧
    runDiscovery2 ["192.0.2.1:5683"] = "192.0.2.1:5683" :=
  ⟨discovery_selection_characterization.1 _ _ (by decide),
    discovery_selection_characterization.2.1 _ _ (by decide),
    discovery_selection_characterization.2.2.1 _,
    discovery_selection_characterization.2.2.2 _ [] (by decide)⟩

lemma not_qualifies1_of_loopback (a : String) (h : isLoopbackAddr a = true) :
    qualifies1 a = false := by
  unfold isLoopbackAddr at h
  unfold qualifies1
  cases hsp : splitHostPort a with
  | none => rfl
  | some hp =>
    rw [hsp] at h
    simp at h
    simp [h]

/-- C6 counterexample: in the second client variant, a run whose only
responder is the loopback address is *selected* (there is no loopback
filter and no timeout branch), refuting "selects no device and fails
with Timeout" for that variant. -/
theorem second_variant_no_timeout_on_loopback :
    isLoopbackAddr "127.0.0.1:5683" = true ∧
    discoverOutcome2 ["127.0.0.1:5683"] = .selected "127.0.0.1:5683" :=
  ⟨by decide, by decide⟩

/-- C6 (amended, first variant): when every response within the window
is a loopback address, the loopback filter skips them all, no device is
selected, and the `select` falls into the `time.After` branch:
`log.Fatal("Timeout: No non-local devices found")`. -/
theorem variant_one_only_loopback_times_out (addrs : List String)
    (h : ∀ a ∈ addrs, isLoopbackAddr a = true) :
    runDiscovery1 addrs = "" ∧ discoverOutcome1 addrs = .timeoutFatal := by
  have hfilter : addrs.filter qualifies1 = [] := by
    rw [List.filter_eq_nil_iff]
    intro a ha
    simp [not_qualifies1_of_loopback a (h a ha)]
  have hrun : runDiscovery1 addrs = "" := by
    rw [runDiscovery1_eq_first_qualifying, hfilter]; rfl
  refine ⟨hrun, ?_⟩
  unfold discoverOutcome1
  rw [hrun]
  rfl

/-- C6 witness: all three loopback spellings respond; the first variant
times out. -/
theorem variant_one_only_loopback_times_out_witness :
    runDiscovery1 ["127.0.0.1:5683", "[::1]:5683", "localhost:5683"] = "" ∧
    discoverOutcome1 ["127.0.0.1:5683", "[::1]:5683", "localhost:5683"] = .timeoutFatal :=
  variant_one_only_loopback_times_out _ (by decide)

/-- `SplitHostPort` dispatch: with a last colon at `i` and no leading
`'['`, only the bare-host checks remain. -/
lemma splitHostPortL_no_bracket (s : List Char) (i : Nat) (h : lastIdx s ':' = some i)
    (hh : ¬s.head? = some '[') :
    splitHostPortL s =
      if (s.take i).contains ':' then none
      else if s.contains '[' then none
      else if s.contains ']' then none
      else some (s.take i, s.drop (i + 1)) := by
  simp only [splitHostPortL, h]
  rw [if_neg hh]

/-- `SplitHostPort` recovers host and port from `host ++ ":5688"` when
the host contains no separator character. -/
lemma splitHostPortL_append_port (l : List Char)
    (hc : (':' : Char) ∉ l) (hb : ('[' : Char) ∉ l) (hk : (']' : Char) ∉ l) :
    splitHostPortL (l ++ ':' :: "5688".data) = some (l, "5688".data) := by
  have hr : ("5688".data.reverse).findIdx? (· = ':') = none := by decide
  have hrev : (l ++ ':' :: "5688".data).reverse
      = "5688".data.reverse ++ ':' :: l.reverse := by simp
  have hfind : ((l ++ ':' :: "5688".data).reverse).findIdx? (· = ':') = some 4 := by
    rw [hrev, List.findIdx?_append, hr, Option.none_or, List.findIdx?_cons]
    simp
  have hlen : (l ++ ':' :: "5688".data).length = l.length + 5 := by simp
  have hlast : lastIdx (l ++ ':' :: "5688".data) ':' = some l.length := by
    unfold lastIdx
    rw [hfind, hlen]
    simp only [Option.map_some', Option.some.injEq]
    omega
  have hhead : ¬(l ++ ':' :: "5688".data).head? = some '[' := by
    cases l with
    | nil => simp
    | cons a t =>
      simp only [List.cons_append, List.head?_cons, Option.some.injEq]
      rintro rfl
      exact hb (List.mem_cons_self _ _)
  have htake : (l ++ ':' :: "5688".data).take l.length = l := List.take_left _ _
  have hdrop : (l ++ ':' :: "5688".data).drop (l.length + 1) = "5688".data := by
    rw [show l ++ ':' :: "5688".data = (l ++ [':']) ++ "5688".data by simp]
    exact List.drop_left' (by simp)
  have haux1 : ('[' : Char) ∉ ':' :: "5688".data := by decide
  have haux2 : (']' : Char) ∉ ':' :: "5688".data := by decide
  rw [splitHostPortL_no_bracket _ l.length hlast hhead, htake, hdrop]
  simp [hc, hb, hk, haux1, haux2]

/-- String-level form: `SplitHostPort (host ++ ":5688")` returns the
host and `"5688"` for separator-free hosts. -/
lemma splitHostPort_append_5688 (h : String) (hsep : hostSepFree h = true) :
    splitHostPort (h ++ ":5688") = some (h, "5688") := by
  have hdata : (h ++ ":5688").data = h.data ++ ':' :: "5688".data := by
    rw [String.data_append]
  simp only [hostSepFree, Bool.not_eq_true', Bool.or_eq_false_iff] at hsep
  obtain ⟨⟨hc, hb⟩, hk⟩ := hsep
  have hc' : (':' : Char) ∉ h.data := by simpa using hc
  have hb' : ('[' : Char) ∉ h.data := by simpa using hb
  have hk' : (']' : Char) ∉ h.data := by simpa using hk
  unfold splitHostPort
  rw [hdata, splitHostPortL_append_port h.data hc' hb' hk']
  rfl

/-- C7: for every selected device address that `SplitHostPort` parses as
host and port, the derived observer address is exactly the host followed
by `":5688"` — the port is replaced by 5688 and the host kept; and for
any separator-free host (every IPv4 address or plain host name),
re-parsing the derived address yields the unchanged host and port 5688. -/
theorem derive_observer_addr_replaces_port (addr h p : String)
    (hsp : splitHostPort addr = some (h, p)) :
    deriveObserverAddr addr = some (h ++ ":5688") ∧
    (hostSepFree h = true → splitHostPort (h ++ ":5688") = some (h, "5688")) := by
  constructor
  · unfold deriveObserverAddr
    rw [hsp]
  · exact splitHostPort_append_5688 h

/-- C7 witness: the spec's scenario address `203.0.113.5:5683`. -/
theorem derive_observer_addr_replaces_port_witness :
    deriveObserverAddr "203.0.113.5:5683" = some ("203.0.113.5" ++ ":5688") ∧
    (hostSepFree "203.0.113.5" = true →
      splitHostPort ("203.0.113.5" ++ ":5688") = some ("203.0.113.5", "5688")) :=
  derive_observer_addr_replaces_port "203.0.113.5:5683" "203.0.113.5" "5683" (by decide)

end GoCoapDemo
